import Mathlib

/-!
Verification of the Raiden Monitoring Service core against its
natural-language specification.

The definitions below are a shallow embedding of
`src/monitoring_service/server.py` (the gevent-based `MonitoringService`
class): its in-memory state (`open_channels`, `token_networks`,
`token_network_listeners`, `task_list`), its view of the state database
(`monitor_requests`), and its event handlers
(`on_channel_open`, `on_channel_close`, `on_channel_settled`,
`on_monitor_request`, `handle_token_network_created`) together with the
constructor sanity checks.

Ethereum addresses are modelled as natural numbers below `2^160`,
channel identifiers as natural numbers below `2^256`; Python `assert`
statements become an explicit `Except` error channel where a handler
contains them.  Python sets are modelled as duplicate-free lists
(`setAdd` inserts only when absent, matching `set.add`; `setDiscard`
removes, matching `set.discard`), and the `monitor_requests` dictionary
of the state database as an association list keyed by channel
identifier.

Parts of the repository outside `src/` (the `StateDBSqlite` storage
layer, the `StoreMonitorRequest` task body, the event-sourced
`MonitoringService` of `monitoring_service/service.py` exercised by
`test_crash.py`) are modelled from the spec; each such definition
carries a doc comment starting `Modelled from the spec:`.
-/

namespace RaidenMS

abbrev Address := Nat

abbrev ChannelId := Nat

/-- `eth_utils.is_address`: the value is a valid 160-bit Ethereum address. -/
def is_address (a : Address) : Bool := a < 2 ^ 160

/-- `raiden_libs.utils.is_channel_identifier`: a 256-bit channel identifier. -/
def is_channel_identifier (c : ChannelId) : Bool := c < 2 ^ 256

/-- The fields of a `MonitorRequest` message that `server.py` and the
storage layer inspect: the channel identifier of its balance proof, the
balance-proof nonce, and the non-closing participant. -/
structure MonitorRequest where
  channel_identifier : ChannelId
  nonce : Nat
  non_closing_participant : Address
  deriving DecidableEq, Repr

/-- The greenlet tasks `server.py` spawns via `start_task`. -/
inductive MSTask where
  | onChannelClose (mr : MonitorRequest)
  | onChannelSettle (mr : MonitorRequest)
  | storeMonitorRequest (mr : MonitorRequest)
  deriving DecidableEq, Repr

/-- A started token-network listener (`BlockchainMonitor`): identified by the
token-network contract address it watches and the block it syncs from. -/
structure TokenNetworkListener where
  contract_address : Address
  sync_start_block : Nat
  deriving DecidableEq, Repr

/-- Python `set.add`: insert only when absent. -/
def setAdd (c : Nat) (l : List Nat) : List Nat :=
  if c ∈ l then l else l ++ [c]

/-- Python `set.discard`: remove the element when present. -/
def setDiscard (c : Nat) (l : List Nat) : List Nat :=
  l.filter (fun x => x ≠ c)

/-- Lookup in the `monitor_requests` dictionary of the state database. -/
def mrLookup (db : List (ChannelId × MonitorRequest)) (c : ChannelId) :
    Option MonitorRequest :=
  (db.find? (fun p => p.1 = c)).map Prod.snd

/-- Modelled from the spec: `StateDBSqlite.delete_monitor_request` is not
under `src/`; per §3 the database stores monitor requests keyed by channel,
so deletion removes every entry stored for that channel identifier. -/
def delete_monitor_request (db : List (ChannelId × MonitorRequest))
    (c : ChannelId) : List (ChannelId × MonitorRequest) :=
  db.filter (fun p => p.1 ≠ c)

/-- Modelled from the spec: the body of the `StoreMonitorRequest` task and
`StateDBSqlite.store_monitor_request` are not under `src/`.  Per §3 the
tuple `(nonce, non_closing_participant)` is monotone: only a strictly
higher nonce supersedes an existing stored request for the same key, and
per §8 intake of a lower-nonce request is a no-op. -/
def store_monitor_request (db : List (ChannelId × MonitorRequest))
    (mr : MonitorRequest) : List (ChannelId × MonitorRequest) :=
  match mrLookup db mr.channel_identifier with
  | some old =>
      if old.nonce < mr.nonce then
        (mr.channel_identifier, mr) :: delete_monitor_request db mr.channel_identifier
      else db
  | none => (mr.channel_identifier, mr) :: db

/-- The mutable state of a running `MonitoringService` instance, together
with the `monitor_requests` view of its state database. -/
structure MSState where
  open_channels : List ChannelId
  token_networks : List Address
  token_network_listeners : List TokenNetworkListener
  monitor_requests : List (ChannelId × MonitorRequest)
  task_list : List MSTask
  deriving DecidableEq, Repr

/-- `MonitoringService.start_task`: start the greenlet and append it to
`task_list`. -/
def start_task (s : MSState) (t : MSTask) : MSState :=
  { s with task_list := s.task_list ++ [t] }

/-- Errors raised by the embedded handlers: a failing Python `assert`, and
the constructor exceptions. -/
inductive MSError where
  | assertionError
  deriving DecidableEq, Repr

/-- `MonitoringService.on_channel_open`: record the channel identifier in
the `open_channels` set. -/
def on_channel_open (s : MSState) (channel_id : ChannelId) : MSState :=
  { s with open_channels := setAdd channel_id s.open_channels }

/-- `MonitoringService.on_channel_close`: after the asserts (the balance
proof reconstructed from the closing transaction is built but never used
beyond a non-`None` assert), return early when no monitor request is
stored for the channel; otherwise spawn an `OnChannelClose` task that
submits the stored monitor request, and discard the channel from
`open_channels`. -/
def on_channel_close (s : MSState) (channel_id : ChannelId)
    (closing_participant : Address) : Except MSError MSState :=
  if ¬ is_address closing_participant then .error .assertionError
  else if ¬ is_channel_identifier channel_id then .error .assertionError
  else
    match mrLookup s.monitor_requests channel_id with
    | none => .ok s
    | some monitor_request =>
        let s1 := start_task s (.onChannelClose monitor_request)
        .ok { s1 with open_channels := setDiscard channel_id s1.open_channels }

/-- `MonitoringService.on_channel_settled`: return early when no monitor
request is stored; otherwise spawn an `OnChannelSettle` task and delete
the stored monitor request for the channel. -/
def on_channel_settled (s : MSState) (channel_id : ChannelId) : MSState :=
  match mrLookup s.monitor_requests channel_id with
  | none => s
  | some monitor_request =>
      let s1 := start_task s (.onChannelSettle monitor_request)
      { s1 with monitor_requests := delete_monitor_request s1.monitor_requests channel_id }

/-- `MonitoringService.on_monitor_request`: return early (drop the message)
when the channel is not in `open_channels`; otherwise spawn a
`StoreMonitorRequest` task. -/
def on_monitor_request (s : MSState) (monitor_request : MonitorRequest) : MSState :=
  if monitor_request.channel_identifier ∈ s.open_channels then
    start_task s (.storeMonitorRequest monitor_request)
  else s

/-- `MonitoringService.handle_token_network_created`: after checksum-address
asserts, when the token network address is not yet known, create and start a
`BlockchainMonitor` syncing from the event block, add the address to
`token_networks` and append the listener; otherwise do nothing. -/
def handle_token_network_created (s : MSState) (token_network_address : Address)
    (token_address : Address) (event_block_number : Nat) : Except MSError MSState :=
  if ¬ is_address token_network_address then .error .assertionError
  else if ¬ is_address token_address then .error .assertionError
  else if token_network_address ∈ s.token_networks then .ok s
  else
    .ok { s with
      token_networks := setAdd token_network_address s.token_networks
      token_network_listeners := s.token_network_listeners ++
        [⟨token_network_address, event_block_number⟩] }

/-- The persisted rows of the state database that the constructor sanity
checks consult (`StateDBSqlite`). -/
structure StateDB where
  initialized : Bool
  chain_id : Nat
  server_address : Address
  monitoring_contract_address : Address
  deriving DecidableEq, Repr

/-- `StateDBSqlite.setup_db`: initialize a fresh database with the current
chain id, monitoring contract address and service address. -/
def setup_db (chain_id : Nat) (monitor_contract_address : Address)
    (self_address : Address) : StateDB :=
  { initialized := true
    chain_id := chain_id
    server_address := self_address
    monitoring_contract_address := monitor_contract_address }

/-- The exceptions the `MonitoringService` constructor can raise from its
sanity checks; each `stateDBInvalid…` variant is one of the `StateDBInvalid`
messages of `server.py`. -/
inductive InitError where
  | stateDBInvalidChainId
  | stateDBInvalidServerAddress
  | stateDBInvalidContractAddress
  | serviceNotRegisteredErr
  deriving DecidableEq, Repr

/-- The sanity checks of `MonitoringService.__init__` (lines 92-112): set up
a fresh database, then compare chain id, service address and monitoring
contract address against the persisted values, raising `StateDBInvalid` on
mismatch; finally require on-chain service registration. -/
def ms_init_checks (chain_id : Nat) (monitor_contract_address : Address)
    (self_address : Address) (service_registered : Bool) (db0 : StateDB) :
    Except InitError StateDB :=
  let db := if db0.initialized = false then
      setup_db chain_id monitor_contract_address self_address
    else db0
  if db.chain_id ≠ chain_id then .error .stateDBInvalidChainId
  else if db.server_address ≠ self_address then .error .stateDBInvalidServerAddress
  else if db.monitoring_contract_address ≠ monitor_contract_address then
    .error .stateDBInvalidContractAddress
  else if service_registered = false then .error .serviceNotRegisteredErr
  else .ok db

/-- The startup check failed fatally with a `StateDBInvalid` exception. -/
def failsWithStateDBInvalid (r : Except InitError StateDB) : Bool :=
  match r with
  | .error .stateDBInvalidChainId => true
  | .error .stateDBInvalidServerAddress => true
  | .error .stateDBInvalidContractAddress => true
  | _ => false

/-!
The event-sourced `MonitoringService` of `monitoring_service/service.py`,
exercised by `src/tests/monitoring/monitoring_service/test_crash.py`, is
not itself under `src/`; the definitions below model it from the spec
(§3, §4.C, §4.D, §4.H): a pure reducer folded over blocks of decoded
events, with the materialized state committed atomically per block.
-/

/-- Modelled from the spec: the channel lifecycle states of §3. -/
inductive ChannelState where
  | Opened
  | Closed
  | Settled
  deriving DecidableEq, Repr

/-- Modelled from the spec: a `Channel` row of the materialized state (§3),
restricted to the attributes the modelled events touch. -/
structure ChannelRow where
  channel_identifier : ChannelId
  participant1 : Address
  participant2 : Address
  settle_timeout : Nat
  state : ChannelState
  update_nonce : Nat
  deriving DecidableEq, Repr

/-- Modelled from the spec: one `monitor(...)` contract call emitted by the
chain writer (§4.G, §6). -/
structure MonitorCall where
  channel_identifier : ChannelId
  non_closing_participant : Address
  nonce : Nat
  deriving DecidableEq, Repr

/-- Modelled from the spec: the materialized database state of §4.C —
`latest_confirmed_block`, channel rows, stored monitor requests and known
token networks, loaded and committed atomically per tick. -/
structure DBState where
  latest_confirmed_block : Nat
  channels : List ChannelRow
  monitor_requests : List (ChannelId × MonitorRequest)
  token_networks : List Address
  deriving DecidableEq, Repr

/-- Modelled from the spec: the decoded events that `test_crash` feeds
through the reducer (§4.B, §4.D). -/
inductive BCEvent where
  | receiveChannelOpened (channel_identifier : ChannelId) (participant1 : Address)
      (participant2 : Address) (settle_timeout : Nat) (block_number : Nat)
  | updatedHeadBlock (block_number : Nat)
  | actionMonitoringTriggered (channel_identifier : ChannelId)
      (non_closing_participant : Address)
  deriving DecidableEq, Repr

/-- Lookup of the unique channel row for an identifier (§3: no two rows
share the key). -/
def channelLookup (rows : List ChannelRow) (c : ChannelId) : Option ChannelRow :=
  rows.find? (fun r => r.channel_identifier = c)

/-- Modelled from the spec: channel-row writes are keyed and upsert-like
(§8, idempotent replay). -/
def upsertChannel (rows : List ChannelRow) (row : ChannelRow) : List ChannelRow :=
  row :: rows.filter (fun r => r.channel_identifier ≠ row.channel_identifier)

/-- Modelled from the spec: the pure reducer of §4.D,
`reduce(state, event) → (new state, emitted monitor calls)`.
`ChannelOpened` inserts the channel row in state `Opened`;
`UpdatedHeadBlock` advances `latest_confirmed_block` (monotone per §3);
a firing `ActionMonitoringTriggered` re-checks its preconditions (§4.D
action-firing policy: channel still `Closed` and on-chain nonce strictly
below the nonce of the stored request) and emits the `monitor(...)` call only
when they still hold, else it is discarded. -/
def reduce (db : DBState) (e : BCEvent) : DBState × List MonitorCall :=
  match e with
  | .receiveChannelOpened cid p1 p2 st _bn =>
      ({ db with channels :=
          upsertChannel db.channels ⟨cid, p1, p2, st, .Opened, 0⟩ }, [])
  | .updatedHeadBlock b =>
      ({ db with latest_confirmed_block := max db.latest_confirmed_block b }, [])
  | .actionMonitoringTriggered cid ncp =>
      match mrLookup db.monitor_requests cid, channelLookup db.channels cid with
      | some mr, some ch =>
          if ch.state = .Closed ∧ ch.update_nonce < mr.nonce then
            (db, [⟨cid, ncp, mr.nonce⟩])
          else (db, [])
      | _, _ => (db, [])

/-- Modelled from the spec: one committed tick (§4.H) folds the reducer
over the decoded events of the block and accumulates the emitted
`monitor(...)` calls. -/
def processEvents : DBState → List BCEvent → DBState × List MonitorCall
  | db, [] => (db, [])
  | db, e :: es =>
      let r1 := reduce db e
      let r2 := processEvents r1.1 es
      (r2.1, r1.2 ++ r2.2)

/-- Modelled from the spec: re-opening a fresh `MonitoringService` on the
same database after a crash — `load()` returns the exact materialized
state corresponding to the last committed tick (§4.C). -/
def restartLoad (db : DBState) : DBState := db

/-- Modelled from the spec: a single uninterrupted run over the whole
event sequence. -/
def runSingle (db : DBState) (events : List BCEvent) : DBState × List MonitorCall :=
  processEvents db events

/-- Modelled from the spec: a run split into committed prefixes, with a
fresh instance re-opened on the same database before each block of
events. -/
def runWithRestarts : DBState → List (List BCEvent) → DBState × List MonitorCall
  | db, [] => (db, [])
  | db, blk :: blocks =>
      let r1 := processEvents (restartLoad db) blk
      let r2 := runWithRestarts r1.1 blocks
      (r2.1, r1.2 ++ r2.2)

/-! ### Helper lemmas -/

theorem mem_setAdd (a c : Nat) (l : List Nat) :
    a ∈ setAdd c l ↔ a = c ∨ a ∈ l := by
  by_cases h : c ∈ l
  · simp only [setAdd, if_pos h]
    constructor
    · exact Or.inr
    · rintro (rfl | ha)
      · exact h
      · exact ha
  · simp [setAdd, if_neg h, List.mem_append, or_comm]

theorem mrLookup_delete (db : List (ChannelId × MonitorRequest)) (c : ChannelId) :
    mrLookup (delete_monitor_request db c) c = none := by
  have h : (delete_monitor_request db c).find? (fun p => p.1 = c) = none := by
    rw [List.find?_eq_none]
    intro x hx
    simp only [delete_monitor_request, List.mem_filter, decide_eq_true_eq] at hx
    simp [hx.2]
  simp [mrLookup, h]

theorem processEvents_append (db : DBState) (xs ys : List BCEvent) :
    processEvents db (xs ++ ys) =
      ((processEvents (processEvents db xs).1 ys).1,
        (processEvents db xs).2 ++ (processEvents (processEvents db xs).1 ys).2) := by
  induction xs generalizing db with
  | nil => simp [processEvents]
  | cons e es ih => simp [processEvents, ih, List.append_assoc]

/-! ### Claims -/

/-- C1 (crash-equivalence): for any partition of an event sequence into
committed prefixes, processing the prefixes across restarts — a fresh
service instance re-opened on the same database before each block — yields
exactly the same final materialized state and the same sequence of
`monitor(...)` calls as a single uninterrupted run over the whole
sequence. -/
theorem C1_crash_equivalence (db : DBState) (blocks : List (List BCEvent)) :
    runWithRestarts db blocks = runSingle db blocks.flatten := by
  induction blocks generalizing db with
  | nil => simp [runWithRestarts, runSingle, processEvents]
  | cons blk rest ih =>
      simp only [runWithRestarts, restartLoad, runSingle, List.flatten_cons,
        processEvents_append, ih]

/-- The scenario of §8: a stored monitor request with nonce 1 for channel 3,
the channel open, settle timeout 20, close at block 10. -/
def mrC2 : MonitorRequest := ⟨3, 1, 2⟩

def stateC2 : MSState :=
  { open_channels := [3]
    token_networks := []
    token_network_listeners := []
    monitor_requests := [(3, mrC2)]
    task_list := [] }

/-- C2, counterexample: in the scenario of §8 (stored request for channel 3,
close at block 10, settle timeout 20), the close handler spawns the
`OnChannelClose` submission task during the handling of the `ChannelClosed`
event itself — the submission is performed immediately.  There is no
`ActionMonitoringTriggered` scheduling, no `monitor_fraction`, and no gate
on a confirmed block reaching `closing_block + floor(settle_timeout × 0.8)
= 26`, contrary to the claim that the submission is deferred to block 26 or
later. -/
theorem C2_counterexample :
    on_channel_close stateC2 3 1 =
      .ok { stateC2 with task_list := [.onChannelClose mrC2], open_channels := [] } := by
  rfl

/-- C2, amended: for every `ChannelClosed` event for a channel with a stored
`MonitorRequest`, the monitor submission is performed immediately — the
handler spawns the `OnChannelClose` submission task in the same invocation
and removes the channel from `open_channels`; no delayed action is
scheduled. -/
theorem C2_immediate_submission (s : MSState) (cid : ChannelId) (p : Address)
    (mr : MonitorRequest) (hp : is_address p = true)
    (hc : is_channel_identifier cid = true)
    (hmr : mrLookup s.monitor_requests cid = some mr) :
    on_channel_close s cid p =
      .ok { s with task_list := s.task_list ++ [.onChannelClose mr]
                   open_channels := setDiscard cid s.open_channels } := by
  simp [on_channel_close, hp, hc, hmr, start_task]

/-- C2, witness: the amended theorem applied to the §8 scenario. -/
theorem C2_immediate_submission_witness :
    on_channel_close stateC2 3 1 =
      .ok { stateC2 with task_list := stateC2.task_list ++ [.onChannelClose mrC2]
                         open_channels := setDiscard 3 stateC2.open_channels } :=
  C2_immediate_submission stateC2 3 1 mrC2 (by decide) (by decide) (by rfl)

def mrC3 : MonitorRequest := ⟨3, 1, 2⟩

def stateC3 : MSState :=
  { open_channels := []
    token_networks := []
    token_network_listeners := []
    monitor_requests := [(3, mrC3)]
    task_list := [] }

/-- C3, counterexample: `stateC3` records no `MonitoringAssistedByMS`
observation — the service state has no such component at all, and in this
run this service never submitted a monitor update — yet settling channel 3
spawns the `OnChannelSettle` reward-claim task anyway, contrary to the
claim that without an observed `MonitoringAssistedByMS` carrying the
service address no reward-claim action is triggered. -/
theorem C3_counterexample :
    on_channel_settled stateC3 3 =
      { stateC3 with task_list := [.onChannelSettle mrC3], monitor_requests := [] } := by
  rfl

/-- C3, amended: for every `ChannelSettled` event, the reward-claim task
(`OnChannelSettle`) is spawned iff a `MonitorRequest` is stored for the
channel; the handler performs no `MonitoringAssistedByMS` check and
schedules no `claim_delay_blocks` delay, and it deletes the stored request
in the same invocation. -/
theorem C3_reward_claim_iff_request_stored (s : MSState) (cid : ChannelId) :
    (∀ mr, mrLookup s.monitor_requests cid = some mr →
      on_channel_settled s cid =
        { s with task_list := s.task_list ++ [.onChannelSettle mr]
                 monitor_requests := delete_monitor_request s.monitor_requests cid }) ∧
    (mrLookup s.monitor_requests cid = none → on_channel_settled s cid = s) := by
  constructor
  · intro mr hmr
    simp [on_channel_settled, hmr, start_task]
  · intro hnone
    simp [on_channel_settled, hnone]

/-- C3, witness: the amended theorem applied to the concrete settled
channel 3 of `stateC3`. -/
theorem C3_reward_claim_witness :
    on_channel_settled stateC3 3 =
      { stateC3 with task_list := stateC3.task_list ++ [.onChannelSettle mrC3]
                     monitor_requests := delete_monitor_request stateC3.monitor_requests 3 } :=
  (C3_reward_claim_iff_request_stored stateC3 3).1 mrC3 (by rfl)

def mrC4old : MonitorRequest := ⟨3, 1, 2⟩

def mrC4new : MonitorRequest := ⟨3, 5, 2⟩

def stateC4 : MSState :=
  { open_channels := [3]
    token_networks := []
    token_network_listeners := []
    monitor_requests := [(3, mrC4old)]
    task_list := [] }

/-- The state after `ChannelClosed(id=3)` is processed on `stateC4`: the
channel is now in `Closed` state (removed from `open_channels`), the old
request (nonce 1) still stored. -/
def stateC4closed : MSState :=
  { open_channels := []
    token_networks := []
    token_network_listeners := []
    monitor_requests := [(3, mrC4old)]
    task_list := [.onChannelClose mrC4old] }

/-- C4, counterexample: channel 3 is closed (`ChannelClosed` processed, so
it left `open_channels`) and a fresh request with nonce 5 — strictly above
the stored nonce 1 — arrives.  The claim requires it to be accepted (the
`Closed`-state exception) and any rejection to carry a typed error;
instead intake returns with the state completely unchanged: no
`StoreMonitorRequest` task is spawned, nothing is upserted, and no error
of any kind is produced (the message is silently dropped). -/
theorem C4_counterexample :
    on_channel_close stateC4 3 1 = .ok stateC4closed ∧
    mrC4old.nonce < mrC4new.nonce ∧
    on_monitor_request stateC4closed mrC4new = stateC4closed := by
  refine ⟨by rfl, by decide, by rfl⟩

/-- C4, amended: intake accepts a `MonitorRequest` iff its channel
identifier is currently in the `open_channels` set, and then spawns a
`StoreMonitorRequest` task; every other request — including one for a
channel in `Closed` state with a strictly higher nonce — is silently
dropped by an early return that leaves the state unchanged and produces no
typed error. -/
theorem C4_intake_open_channels_only (s : MSState) (mr : MonitorRequest) :
    (mr.channel_identifier ∈ s.open_channels →
      on_monitor_request s mr = start_task s (.storeMonitorRequest mr)) ∧
    (mr.channel_identifier ∉ s.open_channels → on_monitor_request s mr = s) := by
  constructor <;> intro h <;> simp [on_monitor_request, h]

/-- C4, witness: the amended theorem applied to the open channel 3 of
`stateC4` and to the closed state `stateC4closed`. -/
theorem C4_intake_witness :
    on_monitor_request stateC4 mrC4new = start_task stateC4 (.storeMonitorRequest mrC4new) ∧
    on_monitor_request stateC4closed mrC4new = stateC4closed :=
  ⟨(C4_intake_open_channels_only stateC4 mrC4new).1 (by decide),
   (C4_intake_open_channels_only stateC4closed mrC4new).2 (by decide)⟩

def mrC5old : MonitorRequest := ⟨9, 5, 2⟩

def mrC5low : MonitorRequest := ⟨9, 3, 2⟩

def dbC5 : List (ChannelId × MonitorRequest) := [(9, mrC5old)]

/-- C5 (monotone nonce): storing a `MonitorRequest` whose nonce is not
strictly greater than the nonce already stored for the same channel key is
a no-op — the database is unchanged; a strictly higher nonce supersedes
the stored request. -/
theorem C5_monotone_nonce (db : List (ChannelId × MonitorRequest))
    (mr old : MonitorRequest)
    (hstored : mrLookup db mr.channel_identifier = some old) :
    (¬ old.nonce < mr.nonce → store_monitor_request db mr = db) ∧
    (old.nonce < mr.nonce →
      mrLookup (store_monitor_request db mr) mr.channel_identifier = some mr) := by
  constructor
  · intro h
    simp [store_monitor_request, hstored, h]
  · intro h
    have hs : store_monitor_request db mr =
        (mr.channel_identifier, mr) :: delete_monitor_request db mr.channel_identifier := by
      simp [store_monitor_request, hstored, h]
    rw [hs]
    unfold mrLookup
    rw [List.find?_cons_of_pos _ (by simp)]
    rfl

/-- C5, witness: a stored nonce-5 request for channel 9 and an incoming
nonce-3 request for the same key — intake leaves the stored data
unchanged. -/
theorem C5_monotone_nonce_witness :
    ¬ mrC5old.nonce < mrC5low.nonce ∧ store_monitor_request dbC5 mrC5low = dbC5 :=
  ⟨by decide, (C5_monotone_nonce dbC5 mrC5low mrC5old (by rfl)).1 (by decide)⟩

def dbC6 : StateDB :=
  { initialized := true
    chain_id := 5
    server_address := 2
    monitoring_contract_address := 3 }

/-- C6: at startup, if the chain id reported by the node, the monitoring
contract address, or the service address of the persisted state database
disagrees with the current values, the constructor sanity checks raise a
`StateDBInvalid` exception — the service fails fatally before any
monitoring activity begins. -/
theorem C6_config_mismatch_fatal (chain_id : Nat) (msc self : Address)
    (reg : Bool) (db : StateDB) (hinit : db.initialized = true)
    (hmis : db.chain_id ≠ chain_id ∨ db.server_address ≠ self ∨
      db.monitoring_contract_address ≠ msc) :
    failsWithStateDBInvalid (ms_init_checks chain_id msc self reg db) = true := by
  by_cases h1 : db.chain_id = chain_id
  · by_cases h2 : db.server_address = self
    · by_cases h3 : db.monitoring_contract_address = msc
      · rcases hmis with h | h | h <;> exact absurd (by assumption) h
      · simp [ms_init_checks, hinit, h1, h2, h3, failsWithStateDBInvalid]
    · simp [ms_init_checks, hinit, h1, h2, failsWithStateDBInvalid]
  · simp [ms_init_checks, hinit, h1, failsWithStateDBInvalid]

/-- C6, witness: a persisted database recorded under chain id 5, opened by
a service talking to chain id 1 — startup fails with `StateDBInvalid`. -/
theorem C6_config_mismatch_witness :
    dbC6.initialized = true ∧ dbC6.chain_id ≠ 1 ∧
    failsWithStateDBInvalid (ms_init_checks 1 3 2 true dbC6) = true :=
  ⟨by rfl, by decide,
   C6_config_mismatch_fatal 1 3 2 true dbC6 (by rfl) (Or.inl (by decide))⟩

def stateC7 : MSState :=
  { open_channels := []
    token_networks := []
    token_network_listeners := []
    monitor_requests := []
    task_list := [] }

/-- C7, counterexample: `ChannelClosed(id=999)` arrives although no
`ChannelOpened(id=999)` was ever processed (`stateC7` is the fresh service
state).  The claim requires the event to be treated as a
`StateInvariantViolation` — the tick aborted, the transaction rolled back,
a persistent violation terminating the service.  Instead the handler
completes normally (`.ok`, i.e. no Python exception and hence nothing to
abort, roll back or exit from) and merely leaves the state unchanged: the
event is silently ignored. -/
theorem C7_counterexample : on_channel_close stateC7 999 1 = .ok stateC7 := by rfl

/-- C7, amended: a `ChannelClosed` event for a channel with no stored
`MonitorRequest` — in particular for a channel for which no `ChannelOpened`
was ever processed — is silently ignored: the handler returns normally
with the whole service state unchanged, spawns no monitor submission,
raises no error and never terminates the service. -/
theorem C7_unknown_channel_ignored (s : MSState) (cid : ChannelId) (p : Address)
    (hp : is_address p = true) (hc : is_channel_identifier cid = true)
    (hmr : mrLookup s.monitor_requests cid = none) :
    on_channel_close s cid p = .ok s := by
  simp [on_channel_close, hp, hc, hmr]

/-- C7, witness: the amended theorem applied to the unknown channel 999. -/
theorem C7_unknown_channel_witness :
    on_channel_close stateC7 999 4 = .ok stateC7 :=
  C7_unknown_channel_ignored stateC7 999 4 (by decide) (by decide) (by rfl)

/-- How many running token-network listeners watch address `a`. -/
def listenerCount (s : MSState) (a : Address) : Nat :=
  s.token_network_listeners.countP (fun l => l.contract_address = a)

/-- Exactly one listener exists per known token network, none for unknown
addresses. -/
def oneListenerPerNetwork (s : MSState) : Prop :=
  ∀ a : Address, listenerCount s a = if a ∈ s.token_networks then 1 else 0

/-- C8: handling `TokenNetworkCreated` is idempotent on replay — for an
address already in the known set the handler returns the state completely
unchanged (same known-network set, same listener list), and it preserves
the invariant that exactly one listener exists per distinct known network
address. -/
theorem C8_idempotent_replay (s s1 : MSState) (tna ta : Address) (bn : Nat)
    (h1 : handle_token_network_created s tna ta bn = .ok s1) :
    (tna ∈ s.token_networks → s1 = s) ∧
    (oneListenerPerNetwork s → oneListenerPerNetwork s1) := by
  unfold handle_token_network_created at h1
  split at h1
  · exact absurd h1 (by simp)
  split at h1
  · exact absurd h1 (by simp)
  split at h1
  case isTrue hmem =>
    rw [Except.ok.injEq] at h1
    subst h1
    exact ⟨fun _ => rfl, fun hinv => hinv⟩
  case isFalse hmem =>
    rw [Except.ok.injEq] at h1
    subst h1
    refine ⟨fun hmem2 => absurd hmem2 hmem, ?_⟩
    intro hinv a
    have hc := hinv a
    simp only [listenerCount] at hc ⊢
    simp only [List.countP_append, List.countP_cons, List.countP_nil]
    by_cases hat : a = tna
    · subst hat
      simp [hc, hmem, mem_setAdd]
    · have hta : ¬ tna = a := fun h => hat h.symm
      simp [hc, hat, hta, mem_setAdd]

def stateC8 : MSState :=
  { open_channels := []
    token_networks := [5]
    token_network_listeners := [⟨5, 0⟩]
    monitor_requests := []
    task_list := [] }

/-- C8, witness: replaying `TokenNetworkCreated` for the already-known
network 5 leaves the state unchanged and keeps one listener per network. -/
theorem C8_idempotent_replay_witness :
    (5 ∈ stateC8.token_networks → stateC8 = stateC8) ∧
    (oneListenerPerNetwork stateC8 → oneListenerPerNetwork stateC8) :=
  C8_idempotent_replay stateC8 stateC8 5 6 10 (by rfl)

def mrC9 : MonitorRequest := ⟨7, 2, 4⟩

def stateC9 : MSState :=
  { open_channels := [7]
    token_networks := []
    token_network_listeners := []
    monitor_requests := []
    task_list := [] }

/-- C9: when a `ChannelClosed` event arrives for a channel with no stored
`MonitorRequest`, the close handler returns early with the service state
entirely unchanged — the channel identifier stays in `open_channels` — so
a `MonitorRequest` arriving after the close is still accepted (a
`StoreMonitorRequest` task is spawned) as if the channel were open. -/
theorem C9_close_without_request_frame (s : MSState) (cid : ChannelId)
    (p : Address) (mr : MonitorRequest) (hp : is_address p = true)
    (hc : is_channel_identifier cid = true)
    (hnone : mrLookup s.monitor_requests cid = none)
    (hopen : cid ∈ s.open_channels) (hmr : mr.channel_identifier = cid) :
    on_channel_close s cid p = .ok s ∧
    on_monitor_request s mr = start_task s (.storeMonitorRequest mr) := by
  constructor
  · simp [on_channel_close, hp, hc, hnone]
  · simp [on_monitor_request, hmr, hopen]

/-- C9, witness: channel 7 is open with no stored request; its close is a
no-op and a later request for channel 7 is still accepted. -/
theorem C9_close_without_request_witness :
    on_channel_close stateC9 7 4 = .ok stateC9 ∧
    on_monitor_request stateC9 mrC9 = start_task stateC9 (.storeMonitorRequest mrC9) :=
  C9_close_without_request_frame stateC9 7 4 mrC9 (by decide) (by decide)
    (by rfl) (by decide) (by rfl)

def mrC10 : MonitorRequest := ⟨11, 6, 2⟩

def stateC10 : MSState :=
  { open_channels := []
    token_networks := []
    token_network_listeners := []
    monitor_requests := [(11, mrC10)]
    task_list := [] }

/-- C10: for every `ChannelSettled` event for a channel with a stored
`MonitorRequest`, the settle handler deletes the stored request in the same
invocation that spawns the reward-claim (`OnChannelSettle`) task; after the
handler returns, no monitor request remains stored for that channel
identifier. -/
theorem C10_settle_deletes_request (s : MSState) (cid : ChannelId)
    (mr : MonitorRequest) (hmr : mrLookup s.monitor_requests cid = some mr) :
    mrLookup (on_channel_settled s cid).monitor_requests cid = none ∧
    MSTask.onChannelSettle mr ∈ (on_channel_settled s cid).task_list := by
  have hs : on_channel_settled s cid =
      { s with task_list := s.task_list ++ [.onChannelSettle mr]
               monitor_requests := delete_monitor_request s.monitor_requests cid } := by
    simp [on_channel_settled, hmr, start_task]
  rw [hs]
  exact ⟨mrLookup_delete s.monitor_requests cid, by simp⟩

/-- C10, witness: settling channel 11 with stored request `mrC10` removes
the request and spawns the reward-claim task. -/
theorem C10_settle_deletes_request_witness :
    mrLookup (on_channel_settled stateC10 11).monitor_requests 11 = none ∧
    MSTask.onChannelSettle mrC10 ∈ (on_channel_settled stateC10 11).task_list :=
  C10_settle_deletes_request stateC10 11 mrC10 (by rfl)

end RaidenMS
